import Mathlib

/-!
Shallow embedding of the applify-backend entity/query model: the Post,
Comment and Like Mongoose schemas and the Express route handlers over them
(posts feed, post CRUD, comments with one level of replies, polymorphic
like toggling).  Ids and timestamps are modelled as naturals; the Mongo
collections are lists of records inside a `Store`; each route handler is a
function from a store (plus the authenticated requester id and request
fields) to a result together with the updated store.  Handlers are
translated branch by branch from `src/routes/posts.js` and the comments
router: validation middleware first, then `findById` existence checks,
then ownership checks, then the mutation.
-/

/-- A document of the `Post` collection (`models/Post.js`): content,
optional image URL, privacy ("public" | "private"), author id, creation
time. -/
structure Post where
  id : Nat
  content : String
  image : Option String
  privacy : String
  author : Nat
  createdAt : Nat
deriving Repr, DecidableEq

/-- A document of the `Comment` collection (`models/Comment.js`): text,
owning post id, author id, optional parent comment id (`none` = top-level
comment, `some` = reply), creation time. -/
structure Comment where
  id : Nat
  text : String
  post : Nat
  author : Nat
  parent : Option Nat
  createdAt : Nat
deriving Repr, DecidableEq

/-- A document of the `Like` collection (`models/Like.js`): liking user,
polymorphic target type ("Post" | "Comment") and target id, creation
time. -/
structure Like where
  id : Nat
  user : Nat
  targetType : String
  targetId : Nat
  createdAt : Nat
deriving Repr, DecidableEq

/-- The database state: the collections (user ids kept abstract — the
post/comment/like routes never write the users collection), a fresh-id
source for newly created documents, and the current clock used for
`createdAt`. -/
structure Store where
  users : List Nat
  posts : List Post
  comments : List Comment
  likes : List Like
  nextId : Nat
  now : Nat
deriving Repr, DecidableEq

/-- Error taxonomy of the route handlers: 400 validation failure,
404 missing entity, 403 ownership failure. -/
inductive ApiError where
  | validation
  | notFound
  | forbidden
deriving Repr, DecidableEq

/-- Result of a handler: success payload or an error response. -/
inductive Outcome (α : Type) where
  | ok (a : α)
  | err (e : ApiError)
deriving Repr, DecidableEq

/-- Model of `Post.findById`: the document of the posts collection with the given
id (Mongo `_id`s are unique within a collection). -/
def findPostById (s : Store) (pid : Nat) : Option Post :=
  s.posts.find? (fun p => p.id == pid)

/-- Model of `Comment.findById`. -/
def findCommentById (s : Store) (cid : Nat) : Option Comment :=
  s.comments.find? (fun c => c.id == cid)

/-- The filter `{ user, targetType, targetId }` used by `Like.findOne`
in both toggle routes. -/
def likeMatches (u : Nat) (tt : String) (tid : Nat) (l : Like) : Bool :=
  l.user == u && l.targetType == tt && l.targetId == tid

/-- Model of `Like.findOne({ user, targetType, targetId })`. -/
def likeFindOne (s : Store) (u : Nat) (tt : String) (tid : Nat) : Option Like :=
  s.likes.find? (likeMatches u tt tid)

/-- The filter `{ targetType, targetId }` used by `Like.countDocuments`
and `Like.deleteMany`. -/
def likeOnTarget (tt : String) (tid : Nat) (l : Like) : Bool :=
  l.targetType == tt && l.targetId == tid

/-- Model of `Like.countDocuments({ targetType, targetId })`. -/
def likeCountDocuments (s : Store) (tt : String) (tid : Nat) : Nat :=
  (s.likes.filter (likeOnTarget tt tid)).length

/-- Model of `Like.exists({ targetType, targetId, user })`, coerced with `!!`. -/
def likeExistsFor (s : Store) (u : Nat) (tt : String) (tid : Nat) : Bool :=
  (likeFindOne s u tt tid).isSome

/-- Whitespace trimming on the character list (the express-validator
`.trim()` sanitizer: strip leading and trailing whitespace). -/
def trimChars (cs : List Char) : List Char :=
  ((cs.dropWhile Char.isWhitespace).reverse.dropWhile Char.isWhitespace).reverse

/-- The `.trim()` sanitizer applied to a request string. -/
def strTrim (s : String) : String := String.mk (trimChars s.data)

/-- The `validatePost` middleware: `content` trimmed non-empty and at
most 5000 characters, `privacy` optional and in {public, private}. -/
def validPostBody (content : String) (privacy : Option String) : Bool :=
  !(strTrim content).isEmpty && (strTrim content).length ≤ 5000 &&
    (match privacy with
     | none => true
     | some p => p == "public" || p == "private")

/-- The `validateComment` middleware: `text` trimmed non-empty and at
most 1000 characters. -/
def validCommentBody (text : String) : Bool :=
  !(strTrim text).isEmpty && (strTrim text).length ≤ 1000

/-- Handler of `POST /api/posts` (create post): validation, then `Post.create` with
privacy defaulting to "public"; the validator's `.trim()` sanitizer means
the stored content is the trimmed input. -/
def createPost (s : Store) (u : Nat) (content : String) (privacy : Option String)
    (image : Option String) : Outcome Post × Store :=
  if validPostBody content privacy then
    let p : Post := { id := s.nextId, content := strTrim content, image := image,
                      privacy := privacy.getD "public", author := u, createdAt := s.now }
    (.ok p, { s with posts := s.posts ++ [p], nextId := s.nextId + 1 })
  else (.err .validation, s)

/-- The feed filter of `GET /api/posts`:
`{ $or: [{ privacy: "public" }, { author: req.user._id }] }`. -/
def feedFilter (u : Nat) (p : Post) : Bool :=
  p.privacy == "public" || p.author == u

/-- Newest-first order used by the feed's `.sort({ createdAt: -1 })`. -/
def postDesc (a b : Post) : Prop := b.createdAt ≤ a.createdAt

instance : DecidableRel postDesc := fun a b => Nat.decLe b.createdAt a.createdAt

instance : IsTotal Post postDesc := ⟨fun a b => Nat.le_total b.createdAt a.createdAt⟩

instance : IsTrans Post postDesc := ⟨fun _ _ _ hab hbc => Nat.le_trans hbc hab⟩

/-- Oldest-first order used by the comment listings'
`.sort({ createdAt: 1 })`. -/
def commentAsc (a b : Comment) : Prop := a.createdAt ≤ b.createdAt

instance : DecidableRel commentAsc := fun a b => Nat.decLe a.createdAt b.createdAt

instance : IsTotal Comment commentAsc := ⟨fun a b => Nat.le_total a.createdAt b.createdAt⟩

instance : IsTrans Comment commentAsc := ⟨fun _ _ _ hab hbc => Nat.le_trans hab hbc⟩

/-- The feed query before pagination:
`Post.find({ $or: ... }).sort({ createdAt: -1 })`. -/
def feedQuery (s : Store) (u : Nat) : List Post :=
  List.insertionSort postDesc (s.posts.filter (feedFilter u))

/-- A feed entry: the post annotated with its derived like count and the
requester's like status. -/
structure FeedPost where
  post : Post
  likeCount : Nat
  isLiked : Bool
deriving Repr, DecidableEq

/-- The `pagination` object of the feed response. -/
structure Pagination where
  page : Nat
  limit : Nat
  total : Nat
  pages : Nat
deriving Repr, DecidableEq

/-- Handler of `GET /api/posts` (feed): filtered, newest-first, `skip = (page-1)*limit`
then `limit`, each post annotated with `likeCount`/`isLiked`, plus the
pagination object with `pages = Math.ceil(total/limit)` (for `limit ≥ 1`
the natural-number ceiling `(total + limit - 1) / limit`). -/
def listFeed (s : Store) (u page limit : Nat) : List FeedPost × Pagination :=
  let skip := (page - 1) * limit
  let pagePosts := ((feedQuery s u).drop skip).take limit
  let data := pagePosts.map (fun p =>
    { post := p
      likeCount := likeCountDocuments s "Post" p.id
      isLiked := likeExistsFor s u "Post" p.id })
  let total := (s.posts.filter (feedFilter u)).length
  (data, { page := page, limit := limit, total := total,
           pages := (total + limit - 1) / limit })

/-- Handler of `PUT /api/posts/:id` (update post): validation first, then
`Post.findById`, then the author check, then content replaced wholesale
and privacy changed only when provided (`if (privacy)`), then `save`. -/
def updatePost (s : Store) (u pid : Nat) (content : String) (privacy : Option String) :
    Outcome Post × Store :=
  if validPostBody content privacy then
    match findPostById s pid with
    | none => (.err .notFound, s)
    | some post =>
      if post.author = u then
        let newPrivacy := (match privacy with | some p => p | none => post.privacy)
        let post' := { post with content := strTrim content, privacy := newPrivacy }
        (.ok post', { s with posts := s.posts.map (fun q => if q.id == pid then post' else q) })
      else (.err .forbidden, s)
  else (.err .validation, s)

/-- Handler of `DELETE /api/posts/:id`: `Post.findById`, author check, then
`Post.findByIdAndDelete` and `Like.deleteMany({ targetType: "Post",
targetId })`.  Comments are not touched. -/
def deletePost (s : Store) (u pid : Nat) : Outcome Unit × Store :=
  match findPostById s pid with
  | none => (.err .notFound, s)
  | some post =>
    if post.author = u then
      (.ok (), { s with
        posts := s.posts.filter (fun p => !(p.id == pid)),
        likes := s.likes.filter (fun l => !(likeOnTarget "Post" pid l)) })
    else (.err .forbidden, s)

/-- Payload of the like-toggle responses. -/
structure LikeToggle where
  isLiked : Bool
  likeCount : Nat
deriving Repr, DecidableEq

/-- Handler of `POST /api/posts/:id/like`: `Post.findById` (404 when missing), then
`Like.findOne` for (user, "Post", id); delete it and recount when present,
`Like.create` and recount when absent. -/
def togglePostLike (s : Store) (u pid : Nat) : Outcome LikeToggle × Store :=
  match findPostById s pid with
  | none => (.err .notFound, s)
  | some _ =>
    match likeFindOne s u "Post" pid with
    | some l =>
      let s' := { s with likes := s.likes.filter (fun x => !(x.id == l.id)) }
      (.ok { isLiked := false, likeCount := likeCountDocuments s' "Post" pid }, s')
    | none =>
      let nl : Like := { id := s.nextId, user := u, targetType := "Post",
                         targetId := pid, createdAt := s.now }
      let s' := { s with likes := s.likes ++ [nl], nextId := s.nextId + 1 }
      (.ok { isLiked := true, likeCount := likeCountDocuments s' "Post" pid }, s')

/-- Handler of `POST /api/comments` (create top-level comment): validation, post
existence check, then `Comment.create` with `parent: null`. -/
def createComment (s : Store) (u : Nat) (text : String) (postId : Nat) :
    Outcome Comment × Store :=
  if validCommentBody text then
    match findPostById s postId with
    | none => (.err .notFound, s)
    | some _ =>
      let c : Comment := { id := s.nextId, text := strTrim text, post := postId,
                           author := u, parent := none, createdAt := s.now }
      (.ok c, { s with comments := s.comments ++ [c], nextId := s.nextId + 1 })
  else (.err .validation, s)

/-- Handler of `POST /api/comments/:id/reply`: validation, parent comment existence
check (only existence — the handler never inspects `parent.parent`), then
`Comment.create` with `post` inherited from the parent and `parent` set to
the given id. -/
def createReply (s : Store) (u : Nat) (text : String) (parentId : Nat) :
    Outcome Comment × Store :=
  if validCommentBody text then
    match findCommentById s parentId with
    | none => (.err .notFound, s)
    | some parentComment =>
      let c : Comment := { id := s.nextId, text := strTrim text, post := parentComment.post,
                           author := u, parent := some parentId, createdAt := s.now }
      (.ok c, { s with comments := s.comments ++ [c], nextId := s.nextId + 1 })
  else (.err .validation, s)

/-- Handler of `POST /api/comments/:id/like`: `Comment.findById` (404 when missing),
then the same toggle as for posts with targetType "Comment". -/
def toggleCommentLike (s : Store) (u cid : Nat) : Outcome LikeToggle × Store :=
  match findCommentById s cid with
  | none => (.err .notFound, s)
  | some _ =>
    match likeFindOne s u "Comment" cid with
    | some l =>
      let s' := { s with likes := s.likes.filter (fun x => !(x.id == l.id)) }
      (.ok { isLiked := false, likeCount := likeCountDocuments s' "Comment" cid }, s')
    | none =>
      let nl : Like := { id := s.nextId, user := u, targetType := "Comment",
                         targetId := cid, createdAt := s.now }
      let s' := { s with likes := s.likes ++ [nl], nextId := s.nextId + 1 }
      (.ok { isLiked := true, likeCount := likeCountDocuments s' "Comment" cid }, s')

/-- Handler of `DELETE /api/comments/:id`: `Comment.findById`, author check, then
`Comment.deleteMany({ $or: [{ _id: id }, { parent: id }] })` and
`Like.deleteMany({ targetType: "Comment", targetId: id })` — only likes on
the target comment itself, not on its deleted replies. -/
def deleteComment (s : Store) (u cid : Nat) : Outcome Unit × Store :=
  match findCommentById s cid with
  | none => (.err .notFound, s)
  | some c =>
    if c.author = u then
      (.ok (), { s with
        comments := s.comments.filter (fun x => !(x.id == cid || x.parent == some cid)),
        likes := s.likes.filter (fun l => !(likeOnTarget "Comment" cid l)) })
    else (.err .forbidden, s)

/-- A reply annotated with like data in the comment listing. -/
structure AnnotatedReply where
  comment : Comment
  likeCount : Nat
  isLiked : Bool
deriving Repr, DecidableEq

/-- A top-level comment of the listing: like data plus its replies. -/
structure CommentWithReplies where
  comment : Comment
  likeCount : Nat
  isLiked : Bool
  replies : List AnnotatedReply
deriving Repr, DecidableEq

/-- Handler of `GET /api/comments/:postId` (list comments): all top-level comments
with `post = postId`, oldest first, each with its replies (oldest first)
and derived like data.  The handler performs no `Post.findById` check, so
the route cannot produce NotFound: it returns a (possibly empty) list for
any post id. -/
def listComments (s : Store) (u postId : Nat) : List CommentWithReplies :=
  let tops := List.insertionSort commentAsc
    (s.comments.filter (fun c => c.post == postId && c.parent == none))
  tops.map (fun c =>
    let replies := List.insertionSort commentAsc
      (s.comments.filter (fun r => r.parent == some c.id))
    { comment := c
      likeCount := likeCountDocuments s "Comment" c.id
      isLiked := likeExistsFor s u "Comment" c.id
      replies := replies.map (fun r =>
        { comment := r
          likeCount := likeCountDocuments s "Comment" r.id
          isLiked := likeExistsFor s u "Comment" r.id }) })

/-- The uniqueness invariant of the Like collection's compound unique
index `{ user: 1, targetType: 1, targetId: 1 }`: no two distinct stored
likes share the (user, targetType, targetId) triple. -/
def likesUnique (s : Store) : Prop :=
  s.likes.Pairwise
    (fun a b => ¬(a.user = b.user ∧ a.targetType = b.targetType ∧ a.targetId = b.targetId))

instance (s : Store) : Decidable (likesUnique s) := by
  unfold likesUnique
  exact List.instDecidablePairwise s.likes

/-- An empty database (fresh deployment). -/
def emptyStore : Store :=
  { users := [], posts := [], comments := [], likes := [], nextId := 10, now := 100 }

/-- A store holding one public post (id 1, author 5) and one top-level
comment on it (id 2, author 5). -/
def storeOnePost : Store :=
  { users := [5, 6]
    posts := [{ id := 1, content := "hello", image := none, privacy := "public",
                author := 5, createdAt := 1 }]
    comments := [{ id := 2, text := "c", post := 1, author := 5, parent := none,
                   createdAt := 2 }]
    likes := []
    nextId := 3
    now := 9 }

/-- A store holding a post, a top-level comment (id 1) and a reply to it
(id 2, parent 1). -/
def storeWithReply : Store :=
  { users := [5, 6]
    posts := [{ id := 10, content := "p", image := none, privacy := "public",
                author := 5, createdAt := 1 }]
    comments := [{ id := 1, text := "top", post := 10, author := 5, parent := none,
                   createdAt := 2 },
                 { id := 2, text := "reply", post := 10, author := 5, parent := some 1,
                   createdAt := 3 }]
    likes := []
    nextId := 3
    now := 50 }

section HelperLemmas

/-- Deleting by a fresh id (larger than every stored like id) removes
nothing. -/
theorem likes_filter_fresh (ls : List Like) (n : Nat) (h : ∀ l ∈ ls, l.id < n) :
    ls.filter (fun x => !(x.id == n)) = ls :=
  List.filter_eq_self.mpr (fun a ha => by
    simpa using Nat.ne_of_lt (h a ha))

/-- A successful like insertion: target present, no existing like. -/
theorem togglePostLike_on (s : Store) (u pid : Nat) (post : Post)
    (hpost : findPostById s pid = some post)
    (hP : likeFindOne s u "Post" pid = none) :
    togglePostLike s u pid =
      (.ok { isLiked := true, likeCount := likeCountDocuments s "Post" pid + 1 },
       { s with likes := s.likes ++ [{ id := s.nextId, user := u, targetType := "Post",
                                       targetId := pid, createdAt := s.now }],
                nextId := s.nextId + 1 }) := by
  simp only [togglePostLike, hpost, hP]
  simp [likeCountDocuments, List.filter_append, likeOnTarget]

end HelperLemmas

/-- A successful like removal on a post: target present, existing like. -/
theorem togglePostLike_off (s : Store) (u pid : Nat) (post : Post) (l : Like)
    (hpost : findPostById s pid = some post)
    (hL : likeFindOne s u "Post" pid = some l) :
    togglePostLike s u pid =
      (.ok { isLiked := false,
             likeCount := likeCountDocuments
               { s with likes := s.likes.filter (fun x => !(x.id == l.id)) } "Post" pid },
       { s with likes := s.likes.filter (fun x => !(x.id == l.id)) }) := by
  simp only [togglePostLike, hpost, hL]

/-- Toggling twice from a state with no like for the pair: like inserted
then removed, counts +1 then back, like list restored exactly. -/
theorem togglePostLike_twice (s : Store) (u pid : Nat) (post : Post)
    (hfresh : ∀ l ∈ s.likes, l.id < s.nextId)
    (hpost : findPostById s pid = some post)
    (hP : likeFindOne s u "Post" pid = none) :
    (togglePostLike s u pid).fst
        = .ok { isLiked := true, likeCount := likeCountDocuments s "Post" pid + 1 } ∧
    togglePostLike (togglePostLike s u pid).snd u pid
        = (.ok { isLiked := false, likeCount := likeCountDocuments s "Post" pid },
           { s with nextId := s.nextId + 1 }) := by
  have h1 := togglePostLike_on s u pid post hpost hP
  set nl : Like := { id := s.nextId, user := u, targetType := "Post",
                     targetId := pid, createdAt := s.now } with hnl
  set s1 : Store := { s with likes := s.likes ++ [nl], nextId := s.nextId + 1 } with hs1
  have hpost1 : findPostById s1 pid = some post := hpost
  have hL1 : likeFindOne s1 u "Post" pid = some nl := by
    unfold likeFindOne at hP ⊢
    rw [hs1]
    simp only [List.find?_append, hP, Option.none_or]
    simp [likeMatches, hnl]
  have hrestore : s1.likes.filter (fun x => !(x.id == nl.id)) = s.likes := by
    rw [hs1]
    simp only [List.filter_append]
    rw [likes_filter_fresh s.likes nl.id hfresh]
    simp
  have h2 := togglePostLike_off s1 u pid post nl hpost1 hL1
  rw [h1]
  refine ⟨rfl, ?_⟩
  rw [h2, hrestore]
  rfl

/-- A successful like insertion on a comment. -/
theorem toggleCommentLike_on (s : Store) (u cid : Nat) (c : Comment)
    (hcmt : findCommentById s cid = some c)
    (hC : likeFindOne s u "Comment" cid = none) :
    toggleCommentLike s u cid =
      (.ok { isLiked := true, likeCount := likeCountDocuments s "Comment" cid + 1 },
       { s with likes := s.likes ++ [{ id := s.nextId, user := u, targetType := "Comment",
                                       targetId := cid, createdAt := s.now }],
                nextId := s.nextId + 1 }) := by
  simp only [toggleCommentLike, hcmt, hC]
  simp [likeCountDocuments, List.filter_append, likeOnTarget]

/-- A successful like removal on a comment. -/
theorem toggleCommentLike_off (s : Store) (u cid : Nat) (c : Comment) (l : Like)
    (hcmt : findCommentById s cid = some c)
    (hL : likeFindOne s u "Comment" cid = some l) :
    toggleCommentLike s u cid =
      (.ok { isLiked := false,
             likeCount := likeCountDocuments
               { s with likes := s.likes.filter (fun x => !(x.id == l.id)) } "Comment" cid },
       { s with likes := s.likes.filter (fun x => !(x.id == l.id)) }) := by
  simp only [toggleCommentLike, hcmt, hL]

/-- Toggling a comment like twice from a state with no like for the
pair. -/
theorem toggleCommentLike_twice (s : Store) (u cid : Nat) (c : Comment)
    (hfresh : ∀ l ∈ s.likes, l.id < s.nextId)
    (hcmt : findCommentById s cid = some c)
    (hC : likeFindOne s u "Comment" cid = none) :
    (toggleCommentLike s u cid).fst
        = .ok { isLiked := true, likeCount := likeCountDocuments s "Comment" cid + 1 } ∧
    toggleCommentLike (toggleCommentLike s u cid).snd u cid
        = (.ok { isLiked := false, likeCount := likeCountDocuments s "Comment" cid },
           { s with nextId := s.nextId + 1 }) := by
  have h1 := toggleCommentLike_on s u cid c hcmt hC
  set nl : Like := { id := s.nextId, user := u, targetType := "Comment",
                     targetId := cid, createdAt := s.now } with hnl
  set s1 : Store := { s with likes := s.likes ++ [nl], nextId := s.nextId + 1 } with hs1
  have hcmt1 : findCommentById s1 cid = some c := hcmt
  have hL1 : likeFindOne s1 u "Comment" cid = some nl := by
    unfold likeFindOne at hC ⊢
    rw [hs1]
    simp only [List.find?_append, hC, Option.none_or]
    simp [likeMatches, hnl]
  have hrestore : s1.likes.filter (fun x => !(x.id == nl.id)) = s.likes := by
    rw [hs1]
    simp only [List.filter_append]
    rw [likes_filter_fresh s.likes nl.id hfresh]
    simp
  have h2 := toggleCommentLike_off s1 u cid c nl hcmt1 hL1
  rw [h1]
  refine ⟨rfl, ?_⟩
  rw [h2, hrestore]
  rfl

/-- C1 (counterexample): with an empty database, both like toggles on the
missing target id 99 perform an existence check and answer NotFound with
the store unchanged (no Like record is created), contrary to the claim
that the toggle proceeds without checking the target. -/
theorem toggle_like_no_existence_check_cex :
    findPostById emptyStore 99 = none ∧
    findCommentById emptyStore 99 = none ∧
    togglePostLike emptyStore 7 99 = (.err .notFound, emptyStore) ∧
    toggleCommentLike emptyStore 7 99 = (.err .notFound, emptyStore) ∧
    (togglePostLike emptyStore 7 99).snd.likes = [] ∧
    (toggleCommentLike emptyStore 7 99).snd.likes = [] :=
  ⟨rfl, rfl, rfl, rfl, rfl, rfl⟩

/-- C1 (amended): the like-toggle routes check the target's existence
first: when the id resolves to no stored Post (resp. Comment), the toggle
fails NotFound and leaves the store unchanged, so no Like referencing a
nonexistent target id can be created through the toggle path. -/
theorem toggle_like_missing_target_fails (s : Store) (u tid : Nat) :
    (findPostById s tid = none → togglePostLike s u tid = (.err .notFound, s)) ∧
    (findCommentById s tid = none → toggleCommentLike s u tid = (.err .notFound, s)) := by
  constructor
  · intro h
    simp [togglePostLike, h]
  · intro h
    simp [toggleCommentLike, h]

/-- C1 witness: the amended theorem applied to the empty store. -/
theorem toggle_like_missing_target_fails_witness :
    togglePostLike emptyStore 7 99 = (.err .notFound, emptyStore) ∧
    toggleCommentLike emptyStore 7 99 = (.err .notFound, emptyStore) :=
  ⟨(toggle_like_missing_target_fails emptyStore 7 99).1 rfl,
   (toggle_like_missing_target_fails emptyStore 7 99).2 rfl⟩

/-- C2 (counterexample): in `storeWithReply`, comment 2 is a reply
(parent = some 1), yet `POST /:id/reply` on it succeeds and stores a new
comment whose parent is comment 2 — the parent of the new comment is not
a top-level comment, and the store now nests three levels deep. -/
theorem reply_to_reply_cex :
    findCommentById storeWithReply 2 =
      some { id := 2, text := "reply", post := 10, author := 5, parent := some 1,
             createdAt := 3 } ∧
    (createReply storeWithReply 6 "hi" 2).fst =
      .ok { id := 3, text := "hi", post := 10, author := 6, parent := some 2,
            createdAt := 50 } ∧
    ({ id := 3, text := "hi", post := 10, author := 6, parent := some 2,
       createdAt := 50 } : Comment)
        ∈ (createReply storeWithReply 6 "hi" 2).snd.comments := by
  refine ⟨rfl, ?_, ?_⟩ <;> decide

/-- The comment document stored by a successful reply creation. -/
def replyDoc (s : Store) (u : Nat) (text : String) (pid : Nat) (pc : Comment) : Comment :=
  { id := s.nextId, text := strTrim text, post := pc.post, author := u,
    parent := some pid, createdAt := s.now }

/-- C2 (amended): reply creation checks only that the parent comment
exists; it stores a new comment with `parent` = the given id (whether or
not that comment is itself a reply) and `post` inherited from the parent,
so comment nesting deeper than one level is reachable. -/
theorem createReply_any_parent (s : Store) (u : Nat) (text : String) (pid : Nat)
    (pc : Comment)
    (hv : validCommentBody text = true)
    (hfind : findCommentById s pid = some pc) :
    createReply s u text pid =
      (.ok (replyDoc s u text pid pc),
       { s with comments := s.comments ++ [replyDoc s u text pid pc],
                nextId := s.nextId + 1 }) ∧
    pc ∈ s.comments ∧ pc.id = pid := by
  refine ⟨by simp [createReply, replyDoc, hv, hfind], ?_, ?_⟩
  · have h : s.comments.find? (fun c => c.id == pid) = some pc := hfind
    exact List.mem_of_find?_eq_some h
  · have h : s.comments.find? (fun c => c.id == pid) = some pc := hfind
    have := List.find?_some h
    simpa using this

/-- C2 witness: the amended theorem applied to a reply-to-a-reply. -/
theorem createReply_any_parent_witness :
    (createReply storeWithReply 6 "hi" 2).fst =
      .ok { id := 3, text := "hi", post := 10, author := 6,
            parent := some 2, createdAt := 50 } ∧
    ({ id := 2, text := "reply", post := 10, author := 5, parent := some 1,
       createdAt := 3 } : Comment) ∈ storeWithReply.comments := by
  have h := createReply_any_parent storeWithReply 6 "hi" 2
    { id := 2, text := "reply", post := 10, author := 5, parent := some 1, createdAt := 3 }
    (by decide) rfl
  refine ⟨?_, h.2.1⟩
  rw [h.1]
  decide

/-- C3 (counterexample): requester 6 is not the author (5) of post 1, yet
an update with a whitespace-only content fails with the 400 validation
error — the validator runs before the ownership check — not with
Forbidden (the store is unchanged either way). -/
theorem nonauthor_invalid_update_cex :
    findPostById storeOnePost 1 =
      some { id := 1, content := "hello", image := none, privacy := "public",
             author := 5, createdAt := 1 } ∧
    updatePost storeOnePost 6 1 " " none = (.err .validation, storeOnePost) ∧
    ApiError.validation ≠ ApiError.forbidden := by
  refine ⟨rfl, ?_, by decide⟩
  decide

/-- C3 (amended): a non-author update or delete on an existing post or
comment fails with Forbidden whenever the payload passes validation (an
invalid update payload instead fails with the 400 validation error,
before the ownership check is reached); in every case the store — and so
the targeted entity — is unchanged. -/
theorem nonauthor_mutation_forbidden (s : Store) (u pid cid : Nat)
    (post : Post) (c : Comment)
    (hpost : findPostById s pid = some post) (hpa : post.author ≠ u)
    (hc : findCommentById s cid = some c) (hca : c.author ≠ u) :
    (∀ content privacy, validPostBody content privacy = true →
        updatePost s u pid content privacy = (.err .forbidden, s)) ∧
    (∀ content privacy, validPostBody content privacy = false →
        updatePost s u pid content privacy = (.err .validation, s)) ∧
    deletePost s u pid = (.err .forbidden, s) ∧
    deleteComment s u cid = (.err .forbidden, s) := by
  refine ⟨?_, ?_, ?_, ?_⟩
  · intro content privacy hv
    simp [updatePost, hv, hpost, hpa]
  · intro content privacy hv
    simp [updatePost, hv]
  · simp [deletePost, hpost, hpa]
  · simp [deleteComment, hc, hca]

/-- C3 witness: requester 6 against post 1 and comment 2, both authored
by user 5. -/
theorem nonauthor_mutation_forbidden_witness :
    updatePost storeOnePost 6 1 "ok" none = (.err .forbidden, storeOnePost) ∧
    updatePost storeOnePost 6 1 " " none = (.err .validation, storeOnePost) ∧
    deletePost storeOnePost 6 1 = (.err .forbidden, storeOnePost) ∧
    deleteComment storeOnePost 6 2 = (.err .forbidden, storeOnePost) := by
  have h := nonauthor_mutation_forbidden storeOnePost 6 1 2
    { id := 1, content := "hello", image := none, privacy := "public",
      author := 5, createdAt := 1 }
    { id := 2, text := "c", post := 1, author := 5, parent := none, createdAt := 2 }
    rfl (by decide) rfl (by decide)
  exact ⟨h.1 "ok" none (by decide), h.2.1 " " none (by decide), h.2.2.1, h.2.2.2⟩

/-- C4: from any store whose like ids are below the fresh-id source,
with the target present and no like by the user on it, a single toggle
answers isLiked = true with likeCount = previous + 1; a second toggle
answers isLiked = false with the pre-toggle likeCount and restores the
stored Like records exactly (for posts and for comments alike). -/
theorem toggle_like_involution (s : Store) (u pid cid : Nat) (post : Post) (c : Comment)
    (hfresh : ∀ l ∈ s.likes, l.id < s.nextId)
    (hpost : findPostById s pid = some post)
    (hcmt : findCommentById s cid = some c)
    (hP : likeFindOne s u "Post" pid = none)
    (hC : likeFindOne s u "Comment" cid = none) :
    ((togglePostLike s u pid).fst
        = .ok { isLiked := true, likeCount := likeCountDocuments s "Post" pid + 1 } ∧
     (togglePostLike (togglePostLike s u pid).snd u pid).fst
        = .ok { isLiked := false, likeCount := likeCountDocuments s "Post" pid } ∧
     (togglePostLike (togglePostLike s u pid).snd u pid).snd.likes = s.likes) ∧
    ((toggleCommentLike s u cid).fst
        = .ok { isLiked := true, likeCount := likeCountDocuments s "Comment" cid + 1 } ∧
     (toggleCommentLike (toggleCommentLike s u cid).snd u cid).fst
        = .ok { isLiked := false, likeCount := likeCountDocuments s "Comment" cid } ∧
     (toggleCommentLike (toggleCommentLike s u cid).snd u cid).snd.likes = s.likes) := by
  have hp := togglePostLike_twice s u pid post hfresh hpost hP
  have hcm := toggleCommentLike_twice s u cid c hfresh hcmt hC
  refine ⟨⟨hp.1, ?_, ?_⟩, ⟨hcm.1, ?_, ?_⟩⟩
  · rw [hp.2]
  · rw [hp.2]
  · rw [hcm.2]
  · rw [hcm.2]

/-- C4 witness: user 6 toggling post 1 and comment 2 of `storeOnePost`
(no prior likes, like count 0). -/
theorem toggle_like_involution_witness :
    (togglePostLike storeOnePost 6 1).fst = .ok { isLiked := true, likeCount := 1 } ∧
    (togglePostLike (togglePostLike storeOnePost 6 1).snd 6 1).fst
       = .ok { isLiked := false, likeCount := 0 } ∧
    (togglePostLike (togglePostLike storeOnePost 6 1).snd 6 1).snd.likes
       = storeOnePost.likes ∧
    (toggleCommentLike storeOnePost 6 2).fst = .ok { isLiked := true, likeCount := 1 } ∧
    (toggleCommentLike (toggleCommentLike storeOnePost 6 2).snd 6 2).snd.likes
       = storeOnePost.likes := by
  have h := toggle_like_involution storeOnePost 6 1 2
    { id := 1, content := "hello", image := none, privacy := "public",
      author := 5, createdAt := 1 }
    { id := 2, text := "c", post := 1, author := 5, parent := none, createdAt := 2 }
    (by decide) rfl rfl rfl rfl
  exact ⟨h.1.1, h.1.2.1, h.1.2.2, h.2.1, h.2.2.2⟩

/-- Membership in the pre-pagination feed query: exactly the stored posts
that are public or authored by the requester. -/
theorem mem_feedQuery {s : Store} {u : Nat} {p : Post} :
    p ∈ feedQuery s u ↔ p ∈ s.posts ∧ (p.privacy = "public" ∨ p.author = u) := by
  simp [feedQuery, List.mem_filter, feedFilter]

/-- A store holding a single private post authored by user 6. -/
def storePriv : Store :=
  { users := [6, 7]
    posts := [{ id := 1, content := "secret", image := none, privacy := "private",
                author := 6, createdAt := 5 }]
    comments := []
    likes := []
    nextId := 2
    now := 9 }

/-- C5: the feed query returns exactly the posts that are public or
authored by the requester, newest first; consequently every private post
in any returned feed page belongs to the requester. -/
theorem feed_visibility (s : Store) (u page limit : Nat) (p : Post) :
    (p ∈ feedQuery s u ↔ p ∈ s.posts ∧ (p.privacy = "public" ∨ p.author = u)) ∧
    List.Sorted postDesc (feedQuery s u) ∧
    (∀ fp, fp ∈ (listFeed s u page limit).fst →
        fp.post.privacy = "private" → fp.post.author = u) := by
  refine ⟨mem_feedQuery, List.sorted_insertionSort postDesc _, ?_⟩
  intro fp hfp hpriv
  simp only [listFeed, List.mem_map] at hfp
  obtain ⟨q, hq, rfl⟩ := hfp
  have hq' : q ∈ feedQuery s u := List.mem_of_mem_drop (List.mem_of_mem_take hq)
  have hvis := (mem_feedQuery.mp hq').2
  simp only at hpriv
  rcases hvis with hpub | hauth
  · rw [hpriv] at hpub
    exact absurd hpub (by decide)
  · exact hauth

/-- C5 witness: requester 6 sees their own private post in the feed
page; the theorem forces its author to be the requester. -/
theorem feed_visibility_witness :
    ({ post := { id := 1, content := "secret", image := none, privacy := "private",
                 author := 6, createdAt := 5 },
       likeCount := 0, isLiked := false } : FeedPost).post.author = 6 :=
  (feed_visibility storePriv 6 1 10
      { id := 1, content := "secret", image := none, privacy := "private",
        author := 6, createdAt := 5 }).2.2 _ (by decide) rfl

/-- A store whose feed has exactly 25 eligible (public) posts. -/
def storeFeed25 : Store :=
  { users := [0]
    posts := (List.range 25).map (fun i =>
      { id := i, content := "x", image := none, privacy := "public",
        author := 0, createdAt := i })
    comments := []
    likes := []
    nextId := 100
    now := 200 }

/-- C6: the feed page skips `(page-1)*limit` elements of the sorted
query, returns at most `limit` posts (exactly
`min limit (total - (page-1)*limit)`), and reports `total` = the number
of eligible posts and `pages = ceil(total/limit)`; in particular page 2
with limit 10 over 25 eligible posts yields 10 posts, total 25,
pages 3. -/
theorem feed_pagination (s : Store) (u page limit : Nat)
    (hp : 1 ≤ page) (hl : 1 ≤ limit) :
    ((listFeed s u page limit).fst).map (fun fp => fp.post)
        = ((feedQuery s u).drop ((page - 1) * limit)).take limit ∧
    (listFeed s u page limit).fst.length ≤ limit ∧
    (listFeed s u page limit).fst.length
        = min limit ((s.posts.filter (feedFilter u)).length - (page - 1) * limit) ∧
    (listFeed s u page limit).snd.total = (s.posts.filter (feedFilter u)).length ∧
    (listFeed s u page limit).snd.pages
        = ((s.posts.filter (feedFilter u)).length + limit - 1) / limit ∧
    ((s.posts.filter (feedFilter u)).length = 25 → page = 2 → limit = 10 →
        (listFeed s u page limit).fst.length = 10 ∧
        (listFeed s u page limit).snd.total = 25 ∧
        (listFeed s u page limit).snd.pages = 3) := by
  have hcomp : ((fun fp => fp.post) ∘ fun p =>
      ({ post := p, likeCount := likeCountDocuments s "Post" p.id,
         isLiked := likeExistsFor s u "Post" p.id } : FeedPost)) = id := rfl
  have hmap : ((listFeed s u page limit).fst).map (fun fp => fp.post)
      = ((feedQuery s u).drop ((page - 1) * limit)).take limit := by
    simp only [listFeed]
    rw [List.map_map, hcomp, List.map_id]
  have hqlen : (feedQuery s u).length = (s.posts.filter (feedFilter u)).length :=
    (List.perm_insertionSort postDesc _).length_eq
  have hlen : (listFeed s u page limit).fst.length
      = min limit ((s.posts.filter (feedFilter u)).length - (page - 1) * limit) := by
    simp [listFeed, List.length_map, List.length_take, List.length_drop, hqlen]
  have htot : (listFeed s u page limit).snd.total
      = (s.posts.filter (feedFilter u)).length := rfl
  have hpages : (listFeed s u page limit).snd.pages
      = ((s.posts.filter (feedFilter u)).length + limit - 1) / limit := rfl
  refine ⟨hmap, ?_, hlen, htot, hpages, ?_⟩
  · rw [hlen]
    exact Nat.min_le_left _ _
  · intro h25 hp2 hl10
    subst hp2
    subst hl10
    rw [h25] at hlen hpages
    rw [h25] at htot
    refine ⟨?_, htot, ?_⟩
    · rw [hlen]
      decide
    · rw [hpages]

/-- C6 witness: page 2, limit 10 over the 25-post store. -/
theorem feed_pagination_witness :
    (listFeed storeFeed25 0 2 10).fst.length = 10 ∧
    (listFeed storeFeed25 0 2 10).snd.total = 25 ∧
    (listFeed storeFeed25 0 2 10).snd.pages = 3 :=
  (feed_pagination storeFeed25 0 2 10 (by decide) (by decide)).2.2.2.2.2
    (by decide) rfl rfl

/-- A store with two posts (post 1 by user 5, post 9 by user 6), one
comment on post 1, and likes on post 1, on the comment, and on post 9. -/
def storeDel : Store :=
  { users := [5, 6]
    posts := [{ id := 1, content := "a", image := none, privacy := "public",
                author := 5, createdAt := 1 },
              { id := 9, content := "b", image := none, privacy := "public",
                author := 6, createdAt := 2 }]
    comments := [{ id := 2, text := "c", post := 1, author := 6, parent := none,
                   createdAt := 3 }]
    likes := [{ id := 3, user := 6, targetType := "Post", targetId := 1, createdAt := 4 },
              { id := 4, user := 5, targetType := "Comment", targetId := 2, createdAt := 5 },
              { id := 5, user := 5, targetType := "Post", targetId := 9, createdAt := 6 }]
    nextId := 6
    now := 9 }

/-- C7: a successful author delete of a post removes exactly that post
and exactly the likes targeting it; comments, users and every other post
and like survive unchanged. -/
theorem deletePost_frame (s : Store) (u pid : Nat) (post : Post)
    (hfind : findPostById s pid = some post) (hauth : post.author = u) :
    (deletePost s u pid).fst = .ok () ∧
    (deletePost s u pid).snd.comments = s.comments ∧
    (deletePost s u pid).snd.users = s.users ∧
    (∀ q ∈ (deletePost s u pid).snd.posts, q ∈ s.posts ∧ q.id ≠ pid) ∧
    (∀ q ∈ s.posts, q.id ≠ pid → q ∈ (deletePost s u pid).snd.posts) ∧
    (∀ l ∈ (deletePost s u pid).snd.likes,
        l ∈ s.likes ∧ ¬(l.targetType = "Post" ∧ l.targetId = pid)) ∧
    (∀ l ∈ s.likes, ¬(l.targetType = "Post" ∧ l.targetId = pid) →
        l ∈ (deletePost s u pid).snd.likes) := by
  have hd : deletePost s u pid =
      (.ok (), { s with
        posts := s.posts.filter (fun p => !(p.id == pid)),
        likes := s.likes.filter (fun l => !(likeOnTarget "Post" pid l)) }) := by
    simp [deletePost, hfind, hauth]
  refine ⟨by rw [hd], by rw [hd], by rw [hd], ?_, ?_, ?_, ?_⟩
  · intro q hq
    rw [hd] at hq
    simp only [List.mem_filter] at hq
    refine ⟨hq.1, ?_⟩
    simpa using hq.2
  · intro q hq hne
    rw [hd]
    simp only [List.mem_filter]
    exact ⟨hq, by simpa using hne⟩
  · intro l hl
    rw [hd] at hl
    simp only [List.mem_filter] at hl
    refine ⟨hl.1, ?_⟩
    have h2 := hl.2
    simp [likeOnTarget] at h2
    tauto
  · intro l hl hne
    rw [hd]
    simp only [List.mem_filter]
    refine ⟨hl, ?_⟩
    simp [likeOnTarget]
    tauto

/-- C7 witness: user 5 deletes post 1 of `storeDel`; the comment
collection is untouched and the likes on the comment and on post 9
survive. -/
theorem deletePost_frame_witness :
    (deletePost storeDel 5 1).fst = .ok () ∧
    (deletePost storeDel 5 1).snd.comments = storeDel.comments ∧
    ({ id := 4, user := 5, targetType := "Comment", targetId := 2,
       createdAt := 5 } : Like) ∈ (deletePost storeDel 5 1).snd.likes ∧
    ({ id := 5, user := 5, targetType := "Post", targetId := 9,
       createdAt := 6 } : Like) ∈ (deletePost storeDel 5 1).snd.likes := by
  have h := deletePost_frame storeDel 5 1
    { id := 1, content := "a", image := none, privacy := "public",
      author := 5, createdAt := 1 } rfl rfl
  exact ⟨h.1, h.2.1,
    h.2.2.2.2.2.2 _ (by decide) (by decide),
    h.2.2.2.2.2.2 _ (by decide) (by decide)⟩

/-- A store with a post, a top-level comment (id 1, author 5), a reply to
it (id 2, author 6), a like on the top-level comment and a like on the
reply. -/
def storeDelComment : Store :=
  { users := [5, 6]
    posts := [{ id := 10, content := "p", image := none, privacy := "public",
                author := 5, createdAt := 1 }]
    comments := [{ id := 1, text := "top", post := 10, author := 5, parent := none,
                   createdAt := 2 },
                 { id := 2, text := "reply", post := 10, author := 6, parent := some 1,
                   createdAt := 3 }]
    likes := [{ id := 3, user := 6, targetType := "Comment", targetId := 1, createdAt := 4 },
              { id := 4, user := 5, targetType := "Comment", targetId := 2, createdAt := 5 }]
    nextId := 5
    now := 9 }

/-- C8: a successful author delete of a comment removes exactly the
target comment and the comments whose parent is the target, and exactly
the likes with targetType Comment and targetId = the target id; likes on
the deleted replies are not removed (they remain, orphaned), and posts
and users are untouched. -/
theorem deleteComment_cascade (s : Store) (u cid : Nat) (c : Comment)
    (hfind : findCommentById s cid = some c) (hauth : c.author = u) :
    (deleteComment s u cid).fst = .ok () ∧
    (deleteComment s u cid).snd.posts = s.posts ∧
    (deleteComment s u cid).snd.users = s.users ∧
    (∀ x ∈ (deleteComment s u cid).snd.comments,
        x ∈ s.comments ∧ x.id ≠ cid ∧ x.parent ≠ some cid) ∧
    (∀ x ∈ s.comments, x.id ≠ cid → x.parent ≠ some cid →
        x ∈ (deleteComment s u cid).snd.comments) ∧
    (∀ l ∈ (deleteComment s u cid).snd.likes,
        l ∈ s.likes ∧ ¬(l.targetType = "Comment" ∧ l.targetId = cid)) ∧
    (∀ l ∈ s.likes, ¬(l.targetType = "Comment" ∧ l.targetId = cid) →
        l ∈ (deleteComment s u cid).snd.likes) ∧
    (∀ l ∈ s.likes, l.targetType = "Comment" → l.targetId ≠ cid →
        l ∈ (deleteComment s u cid).snd.likes) := by
  have hd : deleteComment s u cid =
      (.ok (), { s with
        comments := s.comments.filter (fun x => !(x.id == cid || x.parent == some cid)),
        likes := s.likes.filter (fun l => !(likeOnTarget "Comment" cid l)) }) := by
    simp [deleteComment, hfind, hauth]
  refine ⟨by rw [hd], by rw [hd], by rw [hd], ?_, ?_, ?_, ?_, ?_⟩
  · intro x hx
    rw [hd] at hx
    simp only [List.mem_filter] at hx
    refine ⟨hx.1, ?_⟩
    have h2 := hx.2
    simp at h2
    exact h2
  · intro x hx h1 h2
    rw [hd]
    simp only [List.mem_filter]
    refine ⟨hx, ?_⟩
    simp [h1, h2]
  · intro l hl
    rw [hd] at hl
    simp only [List.mem_filter] at hl
    refine ⟨hl.1, ?_⟩
    have h2 := hl.2
    simp [likeOnTarget] at h2
    tauto
  · intro l hl hne
    rw [hd]
    simp only [List.mem_filter]
    refine ⟨hl, ?_⟩
    simp [likeOnTarget]
    tauto
  · intro l hl htt htid
    rw [hd]
    simp only [List.mem_filter]
    refine ⟨hl, ?_⟩
    simp [likeOnTarget, htid]

/-- C8 witness: user 5 deletes top-level comment 1 of
`storeDelComment`; the like on reply 2 survives, orphaned, while posts
are untouched. -/
theorem deleteComment_cascade_witness :
    (deleteComment storeDelComment 5 1).fst = .ok () ∧
    (deleteComment storeDelComment 5 1).snd.posts = storeDelComment.posts ∧
    ({ id := 4, user := 5, targetType := "Comment", targetId := 2,
       createdAt := 5 } : Like) ∈ (deleteComment storeDelComment 5 1).snd.likes := by
  have h := deleteComment_cascade storeDelComment 5 1
    { id := 1, text := "top", post := 10, author := 5, parent := none, createdAt := 2 }
    rfl rfl
  exact ⟨h.1, h.2.1, h.2.2.2.2.2.2.2 _ (by decide) rfl (by decide)⟩

/-- The uniqueness relation between two stored likes. -/
theorem likesUnique_filter (s : Store) (p : Like → Bool) (h : likesUnique s) :
    (s.likes.filter p).Pairwise
      (fun a b => ¬(a.user = b.user ∧ a.targetType = b.targetType ∧ a.targetId = b.targetId)) :=
  List.Pairwise.sublist (List.filter_sublist _) h

/-- Appending a like for a (user, targetType, targetId) triple that no
stored like matches keeps the collection duplicate-free. -/
theorem likesUnique_append (s : Store) (u : Nat) (tt : String) (tid : Nat) (nl : Like)
    (h : likesUnique s)
    (hnone : likeFindOne s u tt tid = none)
    (hu : nl.user = u) (htt : nl.targetType = tt) (htid : nl.targetId = tid) :
    (s.likes ++ [nl]).Pairwise
      (fun a b => ¬(a.user = b.user ∧ a.targetType = b.targetType ∧ a.targetId = b.targetId)) := by
  rw [List.pairwise_append]
  refine ⟨h, List.pairwise_singleton _ _, ?_⟩
  intro a ha b hb
  have hb' : b = nl := by simpa using hb
  subst hb'
  have := List.find?_eq_none.mp hnone a ha
  simp [likeMatches, hu, htt, htid] at this ⊢
  intro h1 h2
  exact this h1 h2

/-- The post like-toggle preserves like uniqueness. -/
theorem togglePostLike_likesUnique (s : Store) (u pid : Nat) (h : likesUnique s) :
    likesUnique (togglePostLike s u pid).snd := by
  unfold togglePostLike
  cases hfind : findPostById s pid with
  | none => exact h
  | some post =>
    cases hone : likeFindOne s u "Post" pid with
    | some l => exact likesUnique_filter s _ h
    | none =>
      exact likesUnique_append s u "Post" pid _ h hone rfl rfl rfl

/-- The comment like-toggle preserves like uniqueness. -/
theorem toggleCommentLike_likesUnique (s : Store) (u cid : Nat) (h : likesUnique s) :
    likesUnique (toggleCommentLike s u cid).snd := by
  unfold toggleCommentLike
  cases hfind : findCommentById s cid with
  | none => exact h
  | some c =>
    cases hone : likeFindOne s u "Comment" cid with
    | some l => exact likesUnique_filter s _ h
    | none =>
      exact likesUnique_append s u "Comment" cid _ h hone rfl rfl rfl

/-- Post creation leaves the like collection untouched. -/
theorem createPost_likes (s : Store) (u : Nat) (content : String)
    (privacy image : Option String) :
    (createPost s u content privacy image).snd.likes = s.likes := by
  unfold createPost
  split <;> rfl

/-- Post update leaves the like collection untouched. -/
theorem updatePost_likes (s : Store) (u pid : Nat) (content : String)
    (privacy : Option String) :
    (updatePost s u pid content privacy).snd.likes = s.likes := by
  unfold updatePost
  split
  · cases findPostById s pid with
    | none => rfl
    | some post => dsimp only; split <;> rfl
  · rfl

/-- Comment creation leaves the like collection untouched. -/
theorem createComment_likes (s : Store) (u : Nat) (text : String) (postId : Nat) :
    (createComment s u text postId).snd.likes = s.likes := by
  unfold createComment
  split
  · cases findPostById s postId <;> rfl
  · rfl

/-- Reply creation leaves the like collection untouched. -/
theorem createReply_likes (s : Store) (u : Nat) (text : String) (parentId : Nat) :
    (createReply s u text parentId).snd.likes = s.likes := by
  unfold createReply
  split
  · cases findCommentById s parentId <;> rfl
  · rfl

/-- Post deletion preserves like uniqueness. -/
theorem deletePost_likesUnique (s : Store) (u pid : Nat) (h : likesUnique s) :
    likesUnique (deletePost s u pid).snd := by
  unfold deletePost
  cases hfind : findPostById s pid with
  | none => exact h
  | some post =>
    dsimp only
    split
    · exact likesUnique_filter s _ h
    · exact h

/-- Comment deletion preserves like uniqueness. -/
theorem deleteComment_likesUnique (s : Store) (u cid : Nat) (h : likesUnique s) :
    likesUnique (deleteComment s u cid).snd := by
  unfold deleteComment
  cases hfind : findCommentById s cid with
  | none => exact h
  | some c =>
    dsimp only
    split
    · exact likesUnique_filter s _ h
    · exact h

/-- One state transition of the backend: any mutating route handler run
with any authenticated user and any request data (plus a clock tick). -/
inductive Step : Store → Store → Prop where
  | ofCreatePost (s : Store) (u : Nat) (content : String) (privacy image : Option String) :
      Step s (createPost s u content privacy image).snd
  | ofUpdatePost (s : Store) (u pid : Nat) (content : String) (privacy : Option String) :
      Step s (updatePost s u pid content privacy).snd
  | ofDeletePost (s : Store) (u pid : Nat) : Step s (deletePost s u pid).snd
  | ofTogglePostLike (s : Store) (u pid : Nat) : Step s (togglePostLike s u pid).snd
  | ofCreateComment (s : Store) (u : Nat) (text : String) (postId : Nat) :
      Step s (createComment s u text postId).snd
  | ofCreateReply (s : Store) (u : Nat) (text : String) (parentId : Nat) :
      Step s (createReply s u text parentId).snd
  | ofToggleCommentLike (s : Store) (u cid : Nat) : Step s (toggleCommentLike s u cid).snd
  | ofDeleteComment (s : Store) (u cid : Nat) : Step s (deleteComment s u cid).snd
  | ofTick (s : Store) (t : Nat) : Step s { s with now := t }

/-- A store is reachable when it arises from an empty database by some
sequence of route-handler runs. -/
inductive Reachable : Store → Prop where
  | init (nextId now : Nat) :
      Reachable { users := [], posts := [], comments := [], likes := [],
                  nextId := nextId, now := now }
  | step {s s' : Store} : Reachable s → Step s s' → Reachable s'

/-- Every single operation preserves like uniqueness. -/
theorem step_likesUnique {s s' : Store} (h : likesUnique s) (hs : Step s s') :
    likesUnique s' := by
  cases hs with
  | ofCreatePost u content privacy image =>
    unfold likesUnique
    rw [createPost_likes]
    exact h
  | ofUpdatePost u pid content privacy =>
    unfold likesUnique
    rw [updatePost_likes]
    exact h
  | ofDeletePost u pid => exact deletePost_likesUnique s u pid h
  | ofTogglePostLike u pid => exact togglePostLike_likesUnique s u pid h
  | ofCreateComment u text postId =>
    unfold likesUnique
    rw [createComment_likes]
    exact h
  | ofCreateReply u text parentId =>
    unfold likesUnique
    rw [createReply_likes]
    exact h
  | ofToggleCommentLike u cid => exact toggleCommentLike_likesUnique s u cid h
  | ofDeleteComment u cid => exact deleteComment_likesUnique s u cid h
  | ofTick t => exact h

/-- C9: in every reachable store at most one Like exists per
(user, targetType, targetId) triple, and every operation preserves the
uniqueness invariant. -/
theorem like_uniqueness_invariant (s s' : Store) :
    (Reachable s → likesUnique s) ∧
    (likesUnique s → Step s s' → likesUnique s') := by
  constructor
  · intro hr
    induction hr with
    | init nextId now => exact List.Pairwise.nil
    | step hr hs ih => exact step_likesUnique ih hs
  · intro h hs
    exact step_likesUnique h hs

/-- C9 witness: the empty store is reachable and duplicate-free, and a
first like-toggle on post 1 of `storeOnePost` keeps the collection
duplicate-free. -/
theorem like_uniqueness_invariant_witness :
    likesUnique emptyStore ∧ likesUnique (togglePostLike storeOnePost 6 1).snd :=
  ⟨(like_uniqueness_invariant emptyStore emptyStore).1 (Reachable.init 10 100),
   (like_uniqueness_invariant storeOnePost (togglePostLike storeOnePost 6 1).snd).2
     (by decide) (Step.ofTogglePostLike storeOnePost 6 1)⟩

/-- A store with one top-level comment attached to post id 42 while no
post with id 42 exists. -/
def storeOrphan : Store :=
  { users := [1]
    posts := []
    comments := [{ id := 7, text := "ghost", post := 42, author := 1, parent := none,
                   createdAt := 3 }]
    likes := []
    nextId := 8
    now := 9 }

/-- C10: comment listing is total — the route has no post existence
check, so for every post id (a missing one included) it answers with the
possibly empty ascending list of exactly the top-level comments whose
`post` field equals that id; no NotFound outcome exists in its type. -/
theorem listComments_total (s : Store) (u pid : Nat) :
    ((listComments s u pid).map (fun x => x.comment)).Perm
        (s.comments.filter (fun c => c.post == pid && c.parent == none)) ∧
    List.Sorted commentAsc ((listComments s u pid).map (fun x => x.comment)) ∧
    (∀ x ∈ listComments s u pid, x.comment.post = pid ∧ x.comment.parent = none) := by
  have hmap : (listComments s u pid).map (fun x => x.comment)
      = List.insertionSort commentAsc
          (s.comments.filter (fun c => c.post == pid && c.parent == none)) := by
    simp only [listComments]
    rw [List.map_map]
    exact List.map_id'' (fun c => rfl) _
  refine ⟨?_, ?_, ?_⟩
  · rw [hmap]
    exact List.perm_insertionSort commentAsc _
  · rw [hmap]
    exact List.sorted_insertionSort commentAsc _
  · intro x hx
    have hx' : x.comment ∈ (listComments s u pid).map (fun x => x.comment) :=
      List.mem_map_of_mem _ hx
    rw [hmap] at hx'
    rw [List.mem_insertionSort] at hx'
    have := (List.mem_filter.mp hx').2
    simpa using this

/-- C10 witness: listing comments of the nonexistent post 42 still
returns its orphaned top-level comment. -/
theorem listComments_total_witness :
    findPostById storeOrphan 42 = none ∧
    ({ comment := { id := 7, text := "ghost", post := 42, author := 1, parent := none,
                    createdAt := 3 },
       likeCount := 0, isLiked := false, replies := [] } : CommentWithReplies).comment.post
      = 42 :=
  ⟨rfl, ((listComments_total storeOrphan 1 42).2.2 _ (by decide)).1⟩
